import Mathlib

/-!
Shallow embedding of the Galactic Defender Omega simulation core
(source file: src/script.js).

Coordinates, sizes, speeds and times are modelled as rationals.
External collaborators that the spec excludes from the core (asset
loading, audio synthesis, DOM/UI rendering, raw input capture) are
modelled only through their observable traces:

  - screen-transition notifications are logged in an event list;
  - the randomness of Math.random is modelled by a prophecy list of
    rational draws carried in the game state (each call pops the head,
    an exhausted list yields 0);
  - the fire-and-forget timers started by setTimeout (the staggered
    chain-reaction kills and the 2-second victory delay) are logged as
    scheduled events; no claim requires executing the pending callbacks;
  - the render surface is modelled by the list of draw calls issued.
-/

namespace GalacticDefender

/-- Axis-aligned rectangle, the geometric footprint of an entity
(fields x, y, width, height on every Entity in the source). -/
structure Rect where
  x : ℚ
  y : ℚ
  width : ℚ
  height : ℚ
deriving DecidableEq, Repr

/-- Entity.checkCollision from the source: both rectangles are shrunk by a
10 percent margin of their own dimensions and compared with strict
inequalities. -/
def checkCollision (a : Rect) (b : Rect) : Bool :=
  decide (a.x + a.width * (1/10) < b.x + b.width - b.width * (1/10) ∧
    a.x + a.width - a.width * (1/10) > b.x + b.width * (1/10) ∧
    a.y + a.height * (1/10) < b.y + b.height - b.height * (1/10) ∧
    a.y + a.height - a.height * (1/10) > b.y + b.height * (1/10))

/-- The margin-shrunk rectangle described by the spec: inset by 10 percent
of the width on each horizontal side and 10 percent of the height on each
vertical side.  Written from the words of the spec, to be compared with
checkCollision taken from the source. -/
def shrinkRect (r : Rect) : Rect :=
  { x := r.x + r.width * (1/10), y := r.y + r.height * (1/10),
    width := r.width - 2 * (r.width * (1/10)),
    height := r.height - 2 * (r.height * (1/10)) }

/-- Overlap of two rectangles with strict inequality on both axes, as the
spec words it (touching edges do not count). -/
def strictOverlap (a b : Rect) : Prop :=
  a.x < b.x + b.width ∧ b.x < a.x + a.width ∧
  a.y < b.y + b.height ∧ b.y < a.y + a.height

/-- The three hostile archetypes of the source (the type strings given to
the Enemy constructor). -/
inductive EnemyType
  | scout
  | fighter
  | boss
deriving DecidableEq, Repr

/-- Enemy entity: position, size, archetype, hit points, score value,
velocity and the deletion mark. -/
structure Enemy where
  x : ℚ
  y : ℚ
  width : ℚ
  height : ℚ
  type : EnemyType
  hp : ℤ
  scoreValue : ℤ
  speedX : ℚ
  speedY : ℚ
  markedForDeletion : Bool
deriving DecidableEq, Repr

/-- The Enemy constructor.  The per-archetype stat table is taken from the
source; scoutMovesLeft stands for the random sign, drawn in the
constructor, of the horizontal speed of a scout. -/
def Enemy.new (x y : ℚ) (t : EnemyType) (scoutMovesLeft : Bool) : Enemy :=
  match t with
  | EnemyType.scout =>
    { x := x, y := y, width := 40, height := 40, type := t, hp := 1, scoreValue := 10,
      speedX := if scoutMovesLeft then -50 else 50, speedY := 150, markedForDeletion := false }
  | EnemyType.fighter =>
    { x := x, y := y, width := 50, height := 50, type := t, hp := 3, scoreValue := 30,
      speedX := 0, speedY := 80, markedForDeletion := false }
  | EnemyType.boss =>
    { x := x, y := y, width := 120, height := 100, type := t, hp := 50, scoreValue := 500,
      speedX := 0, speedY := 20, markedForDeletion := false }

def Enemy.rect (e : Enemy) : Rect :=
  { x := e.x, y := e.y, width := e.width, height := e.height }

/-- Enemy.update: move by velocity, invert horizontal speed when touching a
side wall, mark for deletion past the bottom edge. -/
def Enemy.update (e : Enemy) (gameWidth gameHeight : ℚ) (dt : ℚ) : Enemy :=
  let e2 := { e with y := e.y + e.speedY * dt, x := e.x + e.speedX * dt }
  let e3 := if e2.x ≤ 0 ∨ e2.x + e2.width ≥ gameWidth then { e2 with speedX := -e2.speedX } else e2
  if e3.y > gameHeight then { e3 with markedForDeletion := true } else e3

/-- Bullet entity (projectile). -/
structure Bullet where
  x : ℚ
  y : ℚ
  width : ℚ
  height : ℚ
  speed : ℚ
  markedForDeletion : Bool
deriving DecidableEq, Repr

/-- The Bullet constructor: a 5 by 15 rectangle with a signed vertical
speed. -/
def Bullet.new (x y speed : ℚ) : Bullet :=
  { x := x, y := y, width := 5, height := 15, speed := speed, markedForDeletion := false }

def Bullet.rect (b : Bullet) : Rect :=
  { x := b.x, y := b.y, width := b.width, height := b.height }

/-- Bullet.update: move vertically, mark for deletion outside the vertical
bounds of the arena. -/
def Bullet.update (b : Bullet) (gameHeight : ℚ) (dt : ℚ) : Bullet :=
  let b2 := { b with y := b.y + b.speed * dt }
  if b2.y < 0 ∨ b2.y > gameHeight then { b2 with markedForDeletion := true } else b2

/-- Player entity. -/
structure Player where
  x : ℚ
  y : ℚ
  width : ℚ
  height : ℚ
  speed : ℚ
  shootTimer : ℚ
  shootInterval : ℚ
  hp : ℤ
  maxHp : ℤ
deriving DecidableEq, Repr

/-- The Player constructor: a 60 by 60 ship horizontally centered near the
bottom of the arena. -/
def Player.new (gameWidth gameHeight : ℚ) : Player :=
  { x := gameWidth / 2 - 60 / 2, y := gameHeight - 60 - 20, width := 60, height := 60,
    speed := 400, shootTimer := 0, shootInterval := 1/5, hp := 100, maxHp := 100 }

def Player.rect (p : Player) : Rect :=
  { x := p.x, y := p.y, width := p.width, height := p.height }

/-- Particle: ephemeral visual actor.  The size and the velocity are
random in the source (Particle constructor); they are produced here from
the prophesied draws r1 r2 r3 with the affine transforms of the source.
The random hsl color string of the default case is modelled as none. -/
structure Particle where
  x : ℚ
  y : ℚ
  size : ℚ
  speedX : ℚ
  speedY : ℚ
  color : Option String
  life : ℚ
  markedForDeletion : Bool
deriving DecidableEq, Repr

/-- The Particle constructor. -/
def Particle.new (r1 r2 r3 : ℚ) (x y : ℚ) (color : Option String) : Particle :=
  { x := x, y := y, size := r1 * 5 + 2, speedX := r2 * 200 - 100, speedY := r3 * 200 - 100,
    color := color, life := 1, markedForDeletion := false }

/-- Particle.update: drift, decay life at twice real time, mark for
deletion when the life is spent. -/
def Particle.update (p : Particle) (dt : ℚ) : Particle :=
  let p2 := { p with x := p.x + p.speedX * dt, y := p.y + p.speedY * dt, life := p.life - dt * 2 }
  if p2.life ≤ 0 then { p2 with markedForDeletion := true } else p2

/-- Logical input state.  left stands for ArrowLeft or KeyA being down,
and so on; space is the fire key. -/
structure Input where
  left : Bool
  right : Bool
  up : Bool
  down : Bool
  space : Bool
deriving DecidableEq, Repr

/-- The gameState strings of the source. -/
inductive GState
  | MENU
  | PLAYING
  | VICTORY
  | GAME_OVER
deriving DecidableEq, Repr

/-- Screen-transition notifications sent to the UI sink (the external
interface of section 6 of the spec); only those needed by the claims are
logged. -/
inductive ExtEvent
  | showGameOver
  | showVictory
deriving DecidableEq, Repr

/-- A timer started by setTimeout: either one staggered chain-reaction
kill (capturing one enemy of the snapshot) or the delayed victory
transition.  The delay is in milliseconds. -/
inductive ScheduledEvent
  | chainKill (delayMs : ℕ)
  | victoryTimer (delayMs : ℕ)
deriving DecidableEq, Repr

/-- The Game state: entity collections, score, wave, flags, state machine,
spawn timing, plus the observation traces described at the top of the
file. -/
structure Game where
  width : ℚ
  height : ℚ
  input : Input
  player : Player
  bullets : List Bullet
  enemies : List Enemy
  particles : List Particle
  score : ℤ
  wave : ℕ
  isRunning : Bool
  isPaused : Bool
  cheatMode : Bool
  gameState : GState
  enemyTimer : ℚ
  enemyInterval : ℚ
  backgroundY : ℚ
  rand : List ℚ
  scheduled : List ScheduledEvent
  events : List ExtEvent
deriving DecidableEq, Repr

/-- One call of Math.random, modelled by popping the prophecy list (0 when
exhausted). -/
def Game.drawRand (g : Game) : ℚ × Game :=
  (g.rand.headD 0, { g with rand := g.rand.tail })

/-- One iteration of the particle loop of Game.createExplosion: push one
new Particle, consuming three random draws. -/
def Game.pushParticle (g : Game) (x y : ℚ) (color : Option String) : Game :=
  let s1 := g.drawRand
  let s2 := s1.2.drawRand
  let s3 := s2.2.drawRand
  { s3.2 with particles := s3.2.particles ++ [Particle.new s1.1 s2.1 s3.1 x y color] }

/-- Game.createExplosion: push count particles at (x, y).  The audio
trigger is an excluded external effect. -/
def Game.createExplosion (g : Game) (x y : ℚ) (count : ℕ) (color : Option String) : Game :=
  (List.range count).foldl (fun h _ => h.pushParticle x y color) g

/-- Game.gameOver: transition to GAME_OVER and notify the UI sink. -/
def Game.gameOver (g : Game) : Game :=
  { g with gameState := GState.GAME_OVER, events := g.events ++ [ExtEvent.showGameOver] }

/-- Game.victory: transition to VICTORY and notify the UI sink. -/
def Game.victory (g : Game) : Game :=
  { g with gameState := GState.VICTORY, events := g.events ++ [ExtEvent.showVictory] }

/-- Player.takeDamage: a no-op in cheat mode; otherwise subtract, clamp at
0 and call gameOver when the result is at most 0. -/
def Game.playerTakeDamage (g : Game) (amount : ℤ) : Game :=
  if g.cheatMode then g
  else
    let hp2 := g.player.hp - amount
    if hp2 ≤ 0 then
      Game.gameOver { g with player := { g.player with hp := 0 } }
    else
      { g with player := { g.player with hp := hp2 } }

/-- Game.triggerChainReaction: for each currently tracked enemy (by its
index in the snapshot) start a timer of index * 100 milliseconds whose
callback kills that enemy.  Only the schedule is recorded. -/
def Game.triggerChainReaction (g : Game) : Game :=
  { g with scheduled :=
      g.scheduled ++ ((List.range g.enemies.length).map
        (fun index => ScheduledEvent.chainKill (index * 100))) }

/-- The death branch of Enemy.takeDamage, after the enemy has been marked
and its score added: for a boss, the large colored explosion, the chain
reaction and the 2000 ms victory timer; otherwise the standard
explosion.  The argument e is the enemy that died. -/
def Game.enemyDeathEffects (g : Game) (e : Enemy) : Game :=
  if e.type = EnemyType.boss then
    let g4 := g.createExplosion (e.x + e.width / 2) (e.y + e.height / 2) 100 (some "#ff0055")
    let g5 := g4.triggerChainReaction
    { g5 with scheduled := g5.scheduled ++ [ScheduledEvent.victoryTimer 2000] }
  else
    g.createExplosion (e.x + e.width / 2) (e.y + e.height / 2) 10 none

/-- Enemy.takeDamage, acting on the enemy at index i of the collection:
subtract hp; when the result is at most 0, mark the enemy, add its score
value, and run the death effects.  The enemy-hit audio trigger is an
excluded external effect. -/
def Game.enemyTakeDamage (g : Game) (i : ℕ) (amount : ℤ) : Game :=
  match g.enemies[i]? with
  | none => g
  | some e =>
    let e2 := { e with hp := e.hp - amount }
    let g2 := { g with enemies := g.enemies.set i e2 }
    if e2.hp ≤ 0 then
      Game.enemyDeathEffects
        { g2 with enemies := g2.enemies.set i { e2 with markedForDeletion := true },
                  score := g2.score + e2.scoreValue } e2
    else g2

/-- Player.shoot: push a bullet centered on the player horizontal midpoint
at the player top edge, moving up at 600 px per second. -/
def Game.shoot (g : Game) : Game :=
  { g with bullets :=
      g.bullets ++ [Bullet.new (g.player.x + g.player.width / 2 - 5/2) g.player.y (-600)] }

/-- Player.updateManual: four independent directional moves. -/
def Game.playerUpdateManual (g : Game) (dt : ℚ) : Game :=
  let p := g.player
  let p := if g.input.left then { p with x := p.x - p.speed * dt } else p
  let p := if g.input.right then { p with x := p.x + p.speed * dt } else p
  let p := if g.input.up then { p with y := p.y - p.speed * dt } else p
  let p := if g.input.down then { p with y := p.y + p.speed * dt } else p
  { g with player := p }

/-- The nearest-enemy scan of Player.updateAI: minimal horizontal distance
between the enemy x and the player x, first found wins on ties. -/
def Game.findNearestEnemy (g : Game) : Option Enemy :=
  g.enemies.foldl
    (fun acc e =>
      match acc with
      | none => some e
      | some best => if |e.x - g.player.x| < |best.x - g.player.x| then some e else acc)
    none

/-- Player.updateAI: track the nearest enemy horizontally with a 10 px
deadband on the center offset; with no enemy, move toward the arena
horizontal center (right when strictly left of it, otherwise left). -/
def Game.playerUpdateAI (g : Game) (dt : ℚ) : Game :=
  let p := g.player
  match g.findNearestEnemy with
  | some ne =>
    if p.x + p.width / 2 < ne.x + ne.width / 2 - 10 then
      { g with player := { p with x := p.x + p.speed * dt } }
    else if p.x + p.width / 2 > ne.x + ne.width / 2 + 10 then
      { g with player := { p with x := p.x - p.speed * dt } }
    else g
  | none =>
    if p.x + p.width / 2 < g.width / 2 then
      { g with player := { p with x := p.x + p.speed * dt } }
    else
      { g with player := { p with x := p.x - p.speed * dt } }

/-- Player.update: movement (AI in cheat mode, manual otherwise), boundary
clamping, cooldown decrement, and the shot when the fire input is active
or cheat mode is on and the cooldown has run out. -/
def Game.playerUpdate (g : Game) (dt : ℚ) : Game :=
  let g1 := if g.cheatMode then g.playerUpdateAI dt else g.playerUpdateManual dt
  let p := g1.player
  let p2 := { p with x := max 0 (min (g1.width - p.width) p.x),
                     y := max 0 (min (g1.height - p.height) p.y) }
  let p3 := if p2.shootTimer > 0 then { p2 with shootTimer := p2.shootTimer - dt } else p2
  let g2 := { g1 with player := p3 }
  if (g2.input.space || g2.cheatMode) ∧ p3.shootTimer ≤ 0 then
    let g3 := g2.shoot
    { g3 with player := { g3.player with shootTimer := g3.player.shootInterval } }
  else g2

/-- Game.spawnEnemy: random horizontal position, fighter with probability
0.3 + wave * 0.05 else scout (a scout draws once more for its direction). -/
def Game.spawnEnemy (g : Game) : Game :=
  let s1 := g.drawRand
  let x := s1.1 * (s1.2.width - 50)
  let s2 := s1.2.drawRand
  let t := if s2.1 < 3/10 + (s2.2.wave : ℚ) * (5/100) then EnemyType.fighter else EnemyType.scout
  let s3 : Bool × Game :=
    if t = EnemyType.scout then
      let s := s2.2.drawRand
      (decide (s.1 < (1:ℚ)/2), s.2)
    else (false, s2.2)
  { s3.2 with enemies := s3.2.enemies ++ [Enemy.new x (-50) t s3.1] }

/-- Game.spawnBoss: push a boss only when none is alive in the
collection. -/
def Game.spawnBoss (g : Game) : Game :=
  if g.enemies.any (fun e => decide (e.type = EnemyType.boss)) then g
  else { g with enemies := g.enemies ++ [Enemy.new (g.width / 2 - 60) (-100) EnemyType.boss false] }

/-- The inner loop body of the bullet-versus-enemy collision pass: test
the current bullet against the enemy at index ei; on a hit mark the bullet
and apply one unit of damage to the enemy. -/
def Game.bulletEnemyStep (acc : Bullet × Game) (ei : ℕ) : Bullet × Game :=
  match acc.2.enemies[ei]? with
  | some e =>
    if checkCollision acc.1.rect e.rect then
      ({ acc.1 with markedForDeletion := true }, acc.2.enemyTakeDamage ei 1)
    else acc
  | none => acc

/-- The outer loop body of the bullet-versus-enemy collision pass: run the
inner loop over every enemy index and append the (possibly marked) bullet
to the already processed ones. -/
def Game.bulletStep (acc : List Bullet × Game) (b : Bullet) : List Bullet × Game :=
  let r := (List.range acc.2.enemies.length).foldl Game.bulletEnemyStep (b, acc.2)
  (acc.1 ++ [r.1], r.2)

/-- First half of Game.checkCollisions: bullets hit enemies, nested loops
with the bullet loop outside. -/
def Game.bulletsHitEnemies (g : Game) : Game :=
  let r := g.bullets.foldl Game.bulletStep ([], g)
  { r.2 with bullets := r.1 }

/-- The loop body of the enemy-versus-player collision pass: on a hit mark
the enemy, apply 20 damage to the player and spawn a small explosion at
the enemy (unshrunk) position. -/
def Game.playerEnemyStep (acc : List Enemy × Game) (e : Enemy) : List Enemy × Game :=
  if checkCollision e.rect acc.2.player.rect then
    let h1 := acc.2.playerTakeDamage 20
    let h2 := h1.createExplosion e.x e.y 10 none
    (acc.1 ++ [{ e with markedForDeletion := true }], h2)
  else (acc.1 ++ [e], acc.2)

/-- Second half of Game.checkCollisions: enemies hit the player. -/
def Game.enemiesHitPlayer (g : Game) : Game :=
  let r := g.enemies.foldl Game.playerEnemyStep ([], g)
  { r.2 with enemies := r.1 }

/-- Game.checkCollisions: the bullet pass, then the player pass. -/
def Game.checkCollisions (g : Game) : Game :=
  g.bulletsHitEnemies.enemiesHitPlayer

/-- Background scroll of Game.update. -/
def Game.updateBackground (g : Game) (dt : ℚ) : Game :=
  let b := g.backgroundY + 50 * dt
  { g with backgroundY := if b ≥ g.height then 0 else b }

/-- Particle phase of Game.update: update every particle, then filter the
collection to the unmarked ones. -/
def Game.updateParticles (g : Game) (dt : ℚ) : Game :=
  let ps := g.particles.map (fun p => p.update dt)
  { g with particles := ps.filter (fun p => !p.markedForDeletion) }

/-- Bullet phase of Game.update: update every bullet, then filter the
collection to the unmarked ones. -/
def Game.updateBullets (g : Game) (dt : ℚ) : Game :=
  let bs := g.bullets.map (fun b => b.update g.height dt)
  { g with bullets := bs.filter (fun b => !b.markedForDeletion) }

/-- Spawn-timer phase of Game.update: count the timer down; at or below 0
spawn one enemy and reset the timer to the current interval. -/
def Game.spawnPhase (g : Game) (dt : ℚ) : Game :=
  let g1 := { g with enemyTimer := g.enemyTimer - dt }
  if g1.enemyTimer ≤ 0 then
    let g2 := g1.spawnEnemy
    { g2 with enemyTimer := g2.enemyInterval }
  else g1

/-- Enemy phase of Game.update: update every enemy, then filter the
collection to the unmarked ones. -/
def Game.updateEnemies (g : Game) (dt : ℚ) : Game :=
  let es := g.enemies.map (fun e => e.update g.width g.height dt)
  { g with enemies := es.filter (fun e => !e.markedForDeletion) }

/-- The spawn-interval expression of the wave-progression branch of
Game.update. -/
def Game.intervalFor (wave : ℕ) : ℚ :=
  max (1/2) (3/2 - (wave : ℚ) * (1/10))

/-- Wave progression of Game.update: when score exceeds wave * 500,
increment the wave, recompute the interval, and attempt a boss spawn at
multiples of 5. -/
def Game.waveProgression (g : Game) : Game :=
  if g.score > (g.wave : ℤ) * 500 then
    let g1 := { g with wave := g.wave + 1 }
    let g2 := { g1 with enemyInterval := Game.intervalFor g1.wave }
    if g2.wave % 5 = 0 then g2.spawnBoss else g2
  else g

/-- Game.update, one frame: an early return when not running or paused;
background scroll and the particle phase always; the gameplay phases only
in the PLAYING state, in the order of the source. -/
def Game.update (g : Game) (dt : ℚ) : Game :=
  if !g.isRunning || g.isPaused then g
  else
    let g1 := g.updateBackground dt
    let g2 := g1.updateParticles dt
    if g2.gameState = GState.PLAYING then
      let g3 := g2.playerUpdate dt
      let g4 := g3.updateBullets dt
      let g5 := g4.spawnPhase dt
      let g6 := g5.updateEnemies dt
      let g7 := g6.checkCollisions
      g7.waveProgression
    else g2

/-- One draw call issued to the render surface. -/
inductive DrawCall
  | playerDraw (p : Player)
  | bulletDraw (b : Bullet)
  | enemyDraw (e : Enemy)
  | particleDraw (q : Particle)
deriving DecidableEq, Repr

/-- Game.draw as the list of entity draw calls it issues (the background
blit carries no entity state): player, bullets and enemies only in the
PLAYING state, particles always and on top. -/
def Game.draw (g : Game) : List DrawCall :=
  (if g.gameState = GState.PLAYING then
    DrawCall.playerDraw g.player ::
      (g.bullets.map DrawCall.bulletDraw ++ g.enemies.map DrawCall.enemyDraw)
  else []) ++ g.particles.map DrawCall.particleDraw

/-- The state right after the Game constructor followed by start(): fresh
collections, score 0, wave 1, PLAYING.  start() does not reset enemyTimer
or enemyInterval; their constructor values 0 and 1.5 are used here (a
restart after a previous run may differ, which start() does not correct). -/
def Game.startState (input : Input) (cheat : Bool) (rand : List ℚ) : Game :=
  { width := 800, height := 600, input := input,
    player := Player.new 800 600,
    bullets := [], enemies := [], particles := [],
    score := 0, wave := 1,
    isRunning := true, isPaused := false, cheatMode := cheat,
    gameState := GState.PLAYING,
    enemyTimer := 0, enemyInterval := 3/2,
    backgroundY := 0, rand := rand, scheduled := [], events := [] }

/-- A sequence of Player.takeDamage calls, applied in order. -/
def Game.applyDamages (g : Game) (amounts : List ℤ) : Game :=
  amounts.foldl Game.playerTakeDamage g

/-- All-keys-up input. -/
def noInput : Input :=
  { left := false, right := false, up := false, down := false, space := false }

/-- A bullet as Player.shoot would create it, placed at (100, 300). -/
def cexBullet : Bullet := Bullet.new 100 300 (-600)

/-- A fighter at (90, 290); its 50 by 50 box overlaps cexBullet. -/
def cexFighter1 : Enemy := Enemy.new 90 290 EnemyType.fighter false

/-- A second fighter at (95, 290), also overlapping cexBullet. -/
def cexFighter2 : Enemy := Enemy.new 95 290 EnemyType.fighter false

/-- A playing state in which the single live bullet overlaps both live
fighters in the same frame. -/
def cexGame1 : Game :=
  { Game.startState noInput false [] with
      bullets := [cexBullet], enemies := [cexFighter1, cexFighter2] }

/-- A playing state in which, during the coming frame, the single bullet
hits the single scout; the spawn timer is far from firing and the player
cooldown prevents a new shot. -/
def cexGame2 : Game :=
  { Game.startState noInput false [] with
      bullets := [Bullet.new 100 300 (-600)],
      enemies := [Enemy.new 90 290 EnemyType.scout false],
      enemyTimer := 100,
      player := { Player.new 800 600 with shootTimer := 5 } }

/-- A playing state whose score already exceeds wave * 500, so that the
next wave-progression check fires. -/
def cexGame5 : Game :=
  { Game.startState noInput false [] with score := 501 }

/-- A cheat-mode run start: no enemies, player exactly at the arena
horizontal center. -/
def cexGame6 : Game := Game.startState noInput true []

/-- A particle with nonzero speed and full life. -/
def cexParticle7 : Particle := Particle.new 0 1 0 50 60 none

/-- A paused run holding one live moving particle. -/
def cexGame7 : Game :=
  { Game.startState noInput false [] with
      isPaused := true, particles := [cexParticle7] }

/-- A run in the VICTORY state holding one live moving particle. -/
def cexGame7b : Game :=
  { Game.startState noInput false [] with
      gameState := GState.VICTORY, particles := [cexParticle7] }

/-- A boss whose hp has already reached 0 (as after the hit that killed
it, before the frame-end purge). -/
def cexDeadBoss : Enemy := { Enemy.new 400 100 EnemyType.boss false with hp := 0 }

/-- A playing state holding the already dead boss. -/
def cexGame8 : Game :=
  { Game.startState noInput false [] with enemies := [cexDeadBoss] }

/-- A cheat-mode playing state with one scout overlapping the player. -/
def cexGame9 : Game :=
  { Game.startState noInput true [] with
      enemies := [Enemy.new 380 530 EnemyType.scout false] }

/-- A predicate holds of a left fold when the step function preserves
it. -/
theorem foldl_preserves {α β : Type} (P : β → Prop) (f : β → α → β)
    (h : ∀ b a, P b → P (f b a)) :
    ∀ (l : List α) (b : β), P b → P (l.foldl f b) := by
  intro l
  induction l with
  | nil => intro b hb; exact hb
  | cons a t ih => intro b hb; exact ih (f b a) (h b a hb)

/-- Game.createExplosion only appends count fresh, unmarked particles and
consumes random draws; every other field of the state is untouched. -/
theorem Game.createExplosion_spec (x y : ℚ) (c : Option String) :
    ∀ (n : ℕ) (g : Game), ∃ ps rs,
      g.createExplosion x y n c = { g with particles := g.particles ++ ps, rand := rs } ∧
      ps.length = n ∧ ps.all (fun p => !p.markedForDeletion) = true := by
  intro n
  induction n with
  | zero =>
    intro g
    refine ⟨[], g.rand, ?_, rfl, rfl⟩
    simp [Game.createExplosion]
  | succ k ih =>
    intro g
    obtain ⟨ps, rs, hEq, hLen, hAll⟩ := ih g
    have hstep : g.createExplosion x y (k + 1) c =
        (g.createExplosion x y k c).pushParticle x y c := by
      simp [Game.createExplosion, List.range_succ]
    refine ⟨ps ++ [Particle.new (rs.headD 0) (rs.tail.headD 0) (rs.tail.tail.headD 0) x y c],
      rs.tail.tail.tail, ?_, by simp [hLen], ?_⟩
    · rw [hstep, hEq]
      simp [Game.pushParticle, Game.drawRand]
    · simp [List.all_append, hAll, Particle.new]

theorem Game.createExplosion_wave (g : Game) (x y : ℚ) (n : ℕ) (c : Option String) :
    (g.createExplosion x y n c).wave = g.wave := by
  obtain ⟨ps, rs, hEq, -, -⟩ := Game.createExplosion_spec x y c n g
  rw [hEq]

theorem Game.createExplosion_enemies (g : Game) (x y : ℚ) (n : ℕ) (c : Option String) :
    (g.createExplosion x y n c).enemies = g.enemies := by
  obtain ⟨ps, rs, hEq, -, -⟩ := Game.createExplosion_spec x y c n g
  rw [hEq]

theorem Game.createExplosion_bullets (g : Game) (x y : ℚ) (n : ℕ) (c : Option String) :
    (g.createExplosion x y n c).bullets = g.bullets := by
  obtain ⟨ps, rs, hEq, -, -⟩ := Game.createExplosion_spec x y c n g
  rw [hEq]

theorem Game.createExplosion_player (g : Game) (x y : ℚ) (n : ℕ) (c : Option String) :
    (g.createExplosion x y n c).player = g.player := by
  obtain ⟨ps, rs, hEq, -, -⟩ := Game.createExplosion_spec x y c n g
  rw [hEq]

theorem Game.createExplosion_score (g : Game) (x y : ℚ) (n : ℕ) (c : Option String) :
    (g.createExplosion x y n c).score = g.score := by
  obtain ⟨ps, rs, hEq, -, -⟩ := Game.createExplosion_spec x y c n g
  rw [hEq]

theorem Game.createExplosion_events (g : Game) (x y : ℚ) (n : ℕ) (c : Option String) :
    (g.createExplosion x y n c).events = g.events := by
  obtain ⟨ps, rs, hEq, -, -⟩ := Game.createExplosion_spec x y c n g
  rw [hEq]

theorem Game.createExplosion_gameState (g : Game) (x y : ℚ) (n : ℕ) (c : Option String) :
    (g.createExplosion x y n c).gameState = g.gameState := by
  obtain ⟨ps, rs, hEq, -, -⟩ := Game.createExplosion_spec x y c n g
  rw [hEq]

theorem Game.createExplosion_cheatMode (g : Game) (x y : ℚ) (n : ℕ) (c : Option String) :
    (g.createExplosion x y n c).cheatMode = g.cheatMode := by
  obtain ⟨ps, rs, hEq, -, -⟩ := Game.createExplosion_spec x y c n g
  rw [hEq]

theorem Game.createExplosion_scheduled (g : Game) (x y : ℚ) (n : ℕ) (c : Option String) :
    (g.createExplosion x y n c).scheduled = g.scheduled := by
  obtain ⟨ps, rs, hEq, -, -⟩ := Game.createExplosion_spec x y c n g
  rw [hEq]

theorem Game.createExplosion_particles_length (g : Game) (x y : ℚ) (n : ℕ) (c : Option String) :
    (g.createExplosion x y n c).particles.length = g.particles.length + n := by
  obtain ⟨ps, rs, hEq, hLen, -⟩ := Game.createExplosion_spec x y c n g
  rw [hEq]
  simp [hLen]

theorem Game.createExplosion_particles_live (g : Game) (x y : ℚ) (n : ℕ) (c : Option String)
    (hg : g.particles.all (fun p => !p.markedForDeletion) = true) :
    (g.createExplosion x y n c).particles.all (fun p => !p.markedForDeletion) = true := by
  obtain ⟨ps, rs, hEq, -, hAll⟩ := Game.createExplosion_spec x y c n g
  rw [hEq]
  simp only [List.all_append]
  simp [hg, hAll]

/-- In cheat mode Player.takeDamage is a no-op. -/
theorem Game.playerTakeDamage_cheat (g : Game) (a : ℤ) (hc : g.cheatMode = true) :
    g.playerTakeDamage a = g := by
  simp [Game.playerTakeDamage, hc]

/-- Outside cheat mode Player.takeDamage either clamps to 0 and notifies
game over, or just subtracts. -/
theorem Game.playerTakeDamage_spec (g : Game) (a : ℤ) (hc : g.cheatMode = false) :
    g.playerTakeDamage a =
      if g.player.hp - a ≤ 0 then
        { g with player := { g.player with hp := 0 },
                 gameState := GState.GAME_OVER,
                 events := g.events ++ [ExtEvent.showGameOver] }
      else { g with player := { g.player with hp := g.player.hp - a } } := by
  simp [Game.playerTakeDamage, Game.gameOver, hc]

theorem Game.playerTakeDamage_wave (g : Game) (a : ℤ) :
    (g.playerTakeDamage a).wave = g.wave := by
  simp only [Game.playerTakeDamage, Game.gameOver]
  split_ifs <;> rfl

theorem Game.playerTakeDamage_particles (g : Game) (a : ℤ) :
    (g.playerTakeDamage a).particles = g.particles := by
  simp only [Game.playerTakeDamage, Game.gameOver]
  split_ifs <;> rfl

theorem Game.playerTakeDamage_enemies (g : Game) (a : ℤ) :
    (g.playerTakeDamage a).enemies = g.enemies := by
  simp only [Game.playerTakeDamage, Game.gameOver]
  split_ifs <;> rfl

theorem Game.playerTakeDamage_bullets (g : Game) (a : ℤ) :
    (g.playerTakeDamage a).bullets = g.bullets := by
  simp only [Game.playerTakeDamage, Game.gameOver]
  split_ifs <;> rfl

theorem Game.playerTakeDamage_cheatMode (g : Game) (a : ℤ) :
    (g.playerTakeDamage a).cheatMode = g.cheatMode := by
  simp only [Game.playerTakeDamage, Game.gameOver]
  split_ifs <;> rfl

theorem Game.playerTakeDamage_hp_nonneg (g : Game) (a : ℤ) (h0 : 0 ≤ g.player.hp) :
    0 ≤ (g.playerTakeDamage a).player.hp := by
  simp only [Game.playerTakeDamage, Game.gameOver]
  split_ifs with h1 h2
  · exact h0
  · exact le_refl 0
  · simp only []
    omega

/-- The death effects only append particles, consume random draws and
extend the timer schedule. -/
theorem Game.enemyDeathEffects_spec (g : Game) (e : Enemy) :
    ∃ ps rs sch,
      g.enemyDeathEffects e =
        { g with particles := g.particles ++ ps, rand := rs, scheduled := sch } ∧
      ps.all (fun p => !p.markedForDeletion) = true := by
  simp only [Game.enemyDeathEffects]
  split_ifs with hb
  · obtain ⟨ps, rs, hEq, -, hAll⟩ :=
      Game.createExplosion_spec (e.x + e.width / 2) (e.y + e.height / 2) (some "#ff0055") 100 g
    refine ⟨ps, rs,
      (g.scheduled ++ (List.range g.enemies.length).map
        (fun index => ScheduledEvent.chainKill (index * 100))) ++
          [ScheduledEvent.victoryTimer 2000], ?_, hAll⟩
    rw [hEq]
    rfl
  · obtain ⟨ps, rs, hEq, -, hAll⟩ :=
      Game.createExplosion_spec (e.x + e.width / 2) (e.y + e.height / 2) none 10 g
    refine ⟨ps, rs, g.scheduled, ?_, hAll⟩
    rw [hEq]

/-- Enemy.takeDamage only rewrites the enemies collection and the score,
appends fresh particles, consumes random draws and extends the timer
schedule. -/
theorem Game.enemyTakeDamage_spec (g : Game) (i : ℕ) (a : ℤ) :
    ∃ es sc ps rs sch,
      g.enemyTakeDamage i a =
        { g with enemies := es, score := sc, particles := g.particles ++ ps,
                 rand := rs, scheduled := sch } ∧
      ps.all (fun p => !p.markedForDeletion) = true := by
  cases hE : g.enemies[i]? with
  | none =>
    refine ⟨g.enemies, g.score, [], g.rand, g.scheduled, ?_, rfl⟩
    simp [Game.enemyTakeDamage, hE]
  | some e =>
    rw [show g.enemyTakeDamage i a =
        (if ({ e with hp := e.hp - a } : Enemy).hp ≤ 0 then
          Game.enemyDeathEffects
            { g with
                enemies := (g.enemies.set i { e with hp := e.hp - a }).set i
                  { e with hp := e.hp - a, markedForDeletion := true },
                score := g.score + ({ e with hp := e.hp - a } : Enemy).scoreValue }
            { e with hp := e.hp - a }
        else { g with enemies := g.enemies.set i { e with hp := e.hp - a } })
      from by simp [Game.enemyTakeDamage, hE]]
    split_ifs with hHp
    · obtain ⟨ps, rs, sch, hEq, hAll⟩ :=
        Game.enemyDeathEffects_spec
          { g with
              enemies := (g.enemies.set i { e with hp := e.hp - a }).set i
                { e with hp := e.hp - a, markedForDeletion := true },
              score := g.score + ({ e with hp := e.hp - a } : Enemy).scoreValue }
          { e with hp := e.hp - a }
      refine ⟨(g.enemies.set i { e with hp := e.hp - a }).set i
        { e with hp := e.hp - a, markedForDeletion := true },
        g.score + ({ e with hp := e.hp - a } : Enemy).scoreValue, ps, rs, sch, ?_, hAll⟩
      rw [hEq]
    · refine ⟨g.enemies.set i { e with hp := e.hp - a }, g.score, [], g.rand, g.scheduled,
        ?_, rfl⟩
      simp

theorem Game.enemyTakeDamage_wave (g : Game) (i : ℕ) (a : ℤ) :
    (g.enemyTakeDamage i a).wave = g.wave := by
  obtain ⟨es, sc, ps, rs, sch, hEq, -⟩ := Game.enemyTakeDamage_spec g i a
  rw [hEq]

theorem Game.enemyTakeDamage_bullets (g : Game) (i : ℕ) (a : ℤ) :
    (g.enemyTakeDamage i a).bullets = g.bullets := by
  obtain ⟨es, sc, ps, rs, sch, hEq, -⟩ := Game.enemyTakeDamage_spec g i a
  rw [hEq]

theorem Game.enemyTakeDamage_player (g : Game) (i : ℕ) (a : ℤ) :
    (g.enemyTakeDamage i a).player = g.player := by
  obtain ⟨es, sc, ps, rs, sch, hEq, -⟩ := Game.enemyTakeDamage_spec g i a
  rw [hEq]

theorem Game.enemyTakeDamage_events (g : Game) (i : ℕ) (a : ℤ) :
    (g.enemyTakeDamage i a).events = g.events := by
  obtain ⟨es, sc, ps, rs, sch, hEq, -⟩ := Game.enemyTakeDamage_spec g i a
  rw [hEq]

theorem Game.enemyTakeDamage_gameState (g : Game) (i : ℕ) (a : ℤ) :
    (g.enemyTakeDamage i a).gameState = g.gameState := by
  obtain ⟨es, sc, ps, rs, sch, hEq, -⟩ := Game.enemyTakeDamage_spec g i a
  rw [hEq]

theorem Game.enemyTakeDamage_particles_live (g : Game) (i : ℕ) (a : ℤ)
    (hg : g.particles.all (fun p => !p.markedForDeletion) = true) :
    (g.enemyTakeDamage i a).particles.all (fun p => !p.markedForDeletion) = true := by
  obtain ⟨es, sc, ps, rs, sch, hEq, hAll⟩ := Game.enemyTakeDamage_spec g i a
  rw [hEq]
  simp only [List.all_append]
  simp [hg, hAll]

/-- The inner collision loop preserves any property of the game state that
enemy damage preserves. -/
theorem Game.bulletEnemyStep_preserve (P : Game → Prop)
    (hd : ∀ (g : Game) (i : ℕ), P g → P (g.enemyTakeDamage i 1)) :
    ∀ (acc : Bullet × Game) (i : ℕ), P acc.2 → P (Game.bulletEnemyStep acc i).2 := by
  intro acc i hp
  unfold Game.bulletEnemyStep
  cases acc.2.enemies[i]? with
  | none => exact hp
  | some e =>
    simp only []
    split_ifs
    · exact hd acc.2 i hp
    · exact hp

/-- The outer collision loop preserves any property of the game state that
enemy damage preserves. -/
theorem Game.bulletStep_preserve (P : Game → Prop)
    (hd : ∀ (g : Game) (i : ℕ), P g → P (g.enemyTakeDamage i 1)) :
    ∀ (acc : List Bullet × Game) (b : Bullet), P acc.2 → P (Game.bulletStep acc b).2 := by
  intro acc b hp
  unfold Game.bulletStep
  exact foldl_preserves (fun bc : Bullet × Game => P bc.2) Game.bulletEnemyStep
    (Game.bulletEnemyStep_preserve P hd) _ (b, acc.2) hp

/-- The bullet-versus-enemy pass preserves any property of the game state
preserved by enemy damage and insensitive to the bullets collection. -/
theorem Game.bulletsHitEnemies_preserve (P : Game → Prop)
    (hd : ∀ (g : Game) (i : ℕ), P g → P (g.enemyTakeDamage i 1))
    (hb : ∀ (g : Game) (bs : List Bullet), P g → P { g with bullets := bs })
    (g : Game) (hg : P g) : P g.bulletsHitEnemies := by
  unfold Game.bulletsHitEnemies
  exact hb _ _ (foldl_preserves (fun acc : List Bullet × Game => P acc.2) Game.bulletStep
    (Game.bulletStep_preserve P hd) g.bullets ([], g) hg)

/-- The player collision loop preserves any property of the game state that
player damage and a 10-particle explosion preserve. -/
theorem Game.playerEnemyStep_preserve (P : Game → Prop)
    (hpd : ∀ g : Game, P g → P (g.playerTakeDamage 20))
    (hexp : ∀ (g : Game) (x y : ℚ), P g → P (g.createExplosion x y 10 none)) :
    ∀ (acc : List Enemy × Game) (e : Enemy), P acc.2 → P (Game.playerEnemyStep acc e).2 := by
  intro acc e hp
  unfold Game.playerEnemyStep
  split_ifs
  · exact hexp _ _ _ (hpd _ hp)
  · exact hp

/-- The enemy-versus-player pass preserves any property of the game state
preserved by player damage and explosions and insensitive to the enemies
collection. -/
theorem Game.enemiesHitPlayer_preserve (P : Game → Prop)
    (hpd : ∀ g : Game, P g → P (g.playerTakeDamage 20))
    (hexp : ∀ (g : Game) (x y : ℚ), P g → P (g.createExplosion x y 10 none))
    (he : ∀ (g : Game) (es : List Enemy), P g → P { g with enemies := es })
    (g : Game) (hg : P g) : P g.enemiesHitPlayer := by
  unfold Game.enemiesHitPlayer
  exact he _ _ (foldl_preserves (fun acc : List Enemy × Game => P acc.2) Game.playerEnemyStep
    (Game.playerEnemyStep_preserve P hpd hexp) g.enemies ([], g) hg)

theorem Game.checkCollisions_wave (g : Game) : g.checkCollisions.wave = g.wave := by
  unfold Game.checkCollisions
  have h1 : g.bulletsHitEnemies.wave = g.wave :=
    Game.bulletsHitEnemies_preserve (fun h => h.wave = g.wave)
      (fun h i hp => (Game.enemyTakeDamage_wave h i 1).trans hp)
      (fun h bs hp => hp) g rfl
  exact Game.enemiesHitPlayer_preserve (fun h => h.wave = g.wave)
    (fun h hp => (Game.playerTakeDamage_wave h 20).trans hp)
    (fun h x y hp => (Game.createExplosion_wave h x y 10 none).trans hp)
    (fun h es hp => hp) _ h1

/-- Manual control only moves the player. -/
theorem Game.playerUpdateManual_spec (g : Game) (dt : ℚ) :
    ∃ p, g.playerUpdateManual dt = { g with player := p } := by
  exact ⟨_, rfl⟩

/-- AI control only moves the player. -/
theorem Game.playerUpdateAI_spec (g : Game) (dt : ℚ) :
    ∃ p, g.playerUpdateAI dt = { g with player := p } := by
  cases hF : g.findNearestEnemy with
  | none =>
    simp only [Game.playerUpdateAI, hF]
    split_ifs <;> exact ⟨_, rfl⟩
  | some ne =>
    simp only [Game.playerUpdateAI, hF]
    split_ifs <;> exact ⟨_, rfl⟩

theorem Game.playerUpdateAI_wave (g : Game) (dt : ℚ) :
    (g.playerUpdateAI dt).wave = g.wave := by
  obtain ⟨p, hEq⟩ := Game.playerUpdateAI_spec g dt
  rw [hEq]

theorem Game.playerUpdateAI_particles (g : Game) (dt : ℚ) :
    (g.playerUpdateAI dt).particles = g.particles := by
  obtain ⟨p, hEq⟩ := Game.playerUpdateAI_spec g dt
  rw [hEq]

theorem Game.playerUpdateAI_gameState (g : Game) (dt : ℚ) :
    (g.playerUpdateAI dt).gameState = g.gameState := by
  obtain ⟨p, hEq⟩ := Game.playerUpdateAI_spec g dt
  rw [hEq]

/-- Player.update does not touch the wave counter. -/
theorem Game.playerUpdate_wave (g : Game) (dt : ℚ) :
    (g.playerUpdate dt).wave = g.wave := by
  simp only [Game.playerUpdate, Game.shoot]
  split_ifs <;> first
    | rfl
    | exact Game.playerUpdateAI_wave g dt

/-- Player.update does not touch the particles collection. -/
theorem Game.playerUpdate_particles (g : Game) (dt : ℚ) :
    (g.playerUpdate dt).particles = g.particles := by
  simp only [Game.playerUpdate, Game.shoot]
  split_ifs <;> first
    | rfl
    | exact Game.playerUpdateAI_particles g dt

/-- Player.update does not change the run state. -/
theorem Game.playerUpdate_gameState (g : Game) (dt : ℚ) :
    (g.playerUpdate dt).gameState = g.gameState := by
  simp only [Game.playerUpdate, Game.shoot]
  split_ifs <;> first
    | rfl
    | exact Game.playerUpdateAI_gameState g dt

/-- Game.spawnEnemy only appends an enemy and consumes random draws. -/
theorem Game.spawnEnemy_spec (g : Game) :
    ∃ e rs, g.spawnEnemy = { g with enemies := g.enemies ++ [e], rand := rs } := by
  simp only [Game.spawnEnemy, Game.drawRand]
  split_ifs <;> exact ⟨_, _, rfl⟩

/-- The spawn phase only touches the enemy timer, the enemies collection
and the random stream. -/
theorem Game.spawnPhase_spec (g : Game) (dt : ℚ) :
    ∃ es rs et, g.spawnPhase dt = { g with enemies := es, rand := rs, enemyTimer := et } := by
  simp only [Game.spawnPhase]
  split_ifs with h
  · obtain ⟨e, rs, hEq⟩ := Game.spawnEnemy_spec { g with enemyTimer := g.enemyTimer - dt }
    rw [hEq]
    exact ⟨_, _, _, rfl⟩
  · exact ⟨g.enemies, g.rand, _, rfl⟩

/-- Game.spawnBoss at most appends an enemy. -/
theorem Game.spawnBoss_spec (g : Game) :
    ∃ es, g.spawnBoss = { g with enemies := es } := by
  unfold Game.spawnBoss
  split_ifs
  · exact ⟨g.enemies, rfl⟩
  · exact ⟨_, rfl⟩

/-- Wave progression only touches the wave, the interval and the enemies
collection, and advances the wave by at most one. -/
theorem Game.waveProgression_spec (g : Game) :
    ∃ w ei es, g.waveProgression = { g with wave := w, enemyInterval := ei, enemies := es } ∧
      (w = g.wave ∨ w = g.wave + 1) := by
  simp only [Game.waveProgression]
  split_ifs with h1 h2
  · obtain ⟨es, hEq⟩ := Game.spawnBoss_spec
      { g with wave := g.wave + 1, enemyInterval := Game.intervalFor (g.wave + 1) }
    rw [hEq]
    exact ⟨_, _, _, rfl, Or.inr rfl⟩
  · exact ⟨_, _, g.enemies, rfl, Or.inr rfl⟩
  · exact ⟨g.wave, g.enemyInterval, g.enemies, rfl, Or.inl rfl⟩

theorem Game.spawnPhase_wave (g : Game) (dt : ℚ) :
    (g.spawnPhase dt).wave = g.wave := by
  obtain ⟨es, rs, et, hEq⟩ := Game.spawnPhase_spec g dt
  rw [hEq]

theorem Game.updateBackground_wave (g : Game) (dt : ℚ) :
    (g.updateBackground dt).wave = g.wave := rfl

theorem Game.updateParticles_wave (g : Game) (dt : ℚ) :
    (g.updateParticles dt).wave = g.wave := rfl

theorem Game.updateBullets_wave (g : Game) (dt : ℚ) :
    (g.updateBullets dt).wave = g.wave := rfl

theorem Game.updateEnemies_wave (g : Game) (dt : ℚ) :
    (g.updateEnemies dt).wave = g.wave := rfl

theorem Game.waveProgression_wave (g : Game) :
    g.waveProgression.wave = g.wave ∨ g.waveProgression.wave = g.wave + 1 := by
  obtain ⟨w, ei, es, hEq, hOr⟩ := Game.waveProgression_spec g
  rw [hEq]
  exact hOr

/-- C10: a single frame advances the wave counter by at most one, since
the wave-progression condition of Game.update is an if evaluated once per
frame. -/
theorem wave_increment_at_most_one (g : Game) (dt : ℚ) :
    (g.update dt).wave = g.wave ∨ (g.update dt).wave = g.wave + 1 := by
  simp only [Game.update]
  split_ifs with h1 h2
  · exact Or.inl rfl
  · have hT : (((((((g.updateBackground dt).updateParticles dt).playerUpdate dt).updateBullets
        dt).spawnPhase dt).updateEnemies dt).checkCollisions).wave = g.wave := by
      rw [Game.checkCollisions_wave, Game.updateEnemies_wave, Game.spawnPhase_wave,
        Game.updateBullets_wave, Game.playerUpdate_wave, Game.updateParticles_wave,
        Game.updateBackground_wave]
    rcases Game.waveProgression_wave ((((((g.updateBackground dt).updateParticles
        dt).playerUpdate dt).updateBullets dt).spawnPhase dt).updateEnemies dt).checkCollisions
      with h | h
    · exact Or.inl (h.trans hT)
    · right
      rw [h, hT]
  · exact Or.inl rfl

/-- C3: the collision test returns true exactly when the two margin-shrunk
rectangles overlap with strict inequalities on both axes, and two 40 by 40
boxes that are exactly edge-adjacent never collide. -/
theorem collision_margin_spec :
    (∀ a b : Rect, checkCollision a b = true ↔ strictOverlap (shrinkRect a) (shrinkRect b)) ∧
    (∀ x y : ℚ, checkCollision ⟨x, y, 40, 40⟩ ⟨x + 40, y, 40, 40⟩ = false) := by
  constructor
  · intro a b
    simp only [checkCollision, strictOverlap, shrinkRect, decide_eq_true_eq, gt_iff_lt]
    constructor
    · rintro ⟨h1, h2, h3, h4⟩
      exact ⟨by linarith, by linarith, by linarith, by linarith⟩
    · rintro ⟨h1, h2, h3, h4⟩
      exact ⟨by linarith, by linarith, by linarith, by linarith⟩
  · intro x y
    simp only [checkCollision, decide_eq_false_iff_not]
    rintro ⟨h1, h2, h3, h4⟩
    norm_num at h2
    linarith

theorem Game.spawnBoss_enemyInterval (g : Game) :
    g.spawnBoss.enemyInterval = g.enemyInterval := by
  obtain ⟨es, hEq⟩ := Game.spawnBoss_spec g
  rw [hEq]

theorem Game.playerUpdateAI_y (g : Game) (dt : ℚ) :
    (g.playerUpdateAI dt).player.y = g.player.y := by
  cases hF : g.findNearestEnemy with
  | none =>
    simp only [Game.playerUpdateAI, hF]
    split_ifs <;> rfl
  | some ne =>
    simp only [Game.playerUpdateAI, hF]
    split_ifs <;> rfl

/-- C5 counterexample: at the start of a run the wave is 1 but the spawn
interval in effect is the constructor value 1.5, not
max(0.5, 1.5 - 1 * 0.1) = 1.4. -/
theorem wave_one_interval_cex :
    (Game.startState noInput false []).wave = 1 ∧
    (Game.startState noInput false []).enemyInterval = 3/2 ∧
    ¬((Game.startState noInput false []).enemyInterval =
      Game.intervalFor (Game.startState noInput false []).wave) := by
  have hIv : Game.intervalFor 1 = 7/5 := by
    rw [Game.intervalFor, max_eq_right (by norm_num)]
    norm_num
  refine ⟨rfl, rfl, ?_⟩
  show ¬((3 : ℚ)/2 = Game.intervalFor 1)
  rw [hIv]
  norm_num

/-- C5 amended: the interval in effect during wave 1 is the initial 1.5;
whenever wave progression fires, the new interval is
max(0.5, 1.5 - (wave + 1) * 0.1); that expression never drops below 0.5
and is strictly decreasing between waves 2 and 10. -/
theorem spawn_interval_amended (g : Game) (w : ℕ) :
    (Game.startState noInput false []).enemyInterval = 3/2 ∧
    (g.score > (g.wave : ℤ) * 500 →
      g.waveProgression.enemyInterval = Game.intervalFor (g.wave + 1)) ∧
    1/2 ≤ Game.intervalFor w ∧
    (2 ≤ w → w ≤ 9 → Game.intervalFor (w + 1) < Game.intervalFor w) := by
  refine ⟨rfl, ?_, le_max_left _ _, ?_⟩
  · intro h
    simp only [Game.waveProgression, if_pos h]
    split_ifs
    · rw [Game.spawnBoss_enemyInterval]
    · rfl
  · intro h2 h9
    have hwq : (w : ℚ) ≤ 9 := by exact_mod_cast h9
    rw [Game.intervalFor, Game.intervalFor]
    push_cast
    rw [max_eq_right (by linarith), max_eq_right (by linarith)]
    linarith

/-- C5 witness: a state with score 501 in wave 1 recomputes the interval
for wave 2, and the formula strictly decreases from wave 2 to wave 3. -/
theorem spawn_interval_amended_witness :
    cexGame5.score > (cexGame5.wave : ℤ) * 500 ∧
    cexGame5.waveProgression.enemyInterval = Game.intervalFor (cexGame5.wave + 1) ∧
    Game.intervalFor (2 + 1) < Game.intervalFor 2 :=
  ⟨by norm_num [cexGame5, Game.startState],
   (spawn_interval_amended cexGame5 2).2.1 (by norm_num [cexGame5, Game.startState]),
   (spawn_interval_amended cexGame5 2).2.2.2 (by norm_num) (by norm_num)⟩

/-- C6 counterexample: in cheat mode with no hostile and the player
exactly centered (well inside the claimed deadband), the AI still moves
the player 40 px left in a 0.1 s frame instead of stopping. -/
theorem ai_center_no_deadband_cex :
    cexGame6.enemies = [] ∧
    |cexGame6.player.x + cexGame6.player.width / 2 - cexGame6.width / 2| ≤ 10 ∧
    cexGame6.player.x = 370 ∧
    (cexGame6.playerUpdateAI (1/10)).player.x = 330 := by
  refine ⟨rfl, by norm_num [cexGame6, Game.startState, Player.new], ?_, ?_⟩
  · norm_num [cexGame6, Game.startState, Player.new]
  · norm_num [cexGame6, Game.startState, Game.playerUpdateAI, Game.findNearestEnemy,
      Player.new]

/-- C6 amended: the AI never alters the vertical position; with no
hostile it moves right when the player center is strictly left of the
arena center and otherwise left, with no deadband, so it never stops at
the center. -/
theorem ai_centering_amended (g : Game) (dt : ℚ) (h : g.enemies = []) :
    (∀ (g2 : Game) (dt2 : ℚ), (g2.playerUpdateAI dt2).player.y = g2.player.y) ∧
    (g.playerUpdateAI dt).player.x =
      (if g.player.x + g.player.width / 2 < g.width / 2 then g.player.x + g.player.speed * dt
       else g.player.x - g.player.speed * dt) := by
  constructor
  · exact fun g2 dt2 => Game.playerUpdateAI_y g2 dt2
  · have hF : g.findNearestEnemy = none := by
      simp [Game.findNearestEnemy, h]
    simp only [Game.playerUpdateAI, hF]
    split_ifs <;> rfl

/-- C6 witness: the amended movement rule evaluated at the centered
cheat-mode start state. -/
theorem ai_centering_amended_witness :
    cexGame6.enemies = [] ∧
    (cexGame6.playerUpdateAI (1/10)).player.x =
      (if cexGame6.player.x + cexGame6.player.width / 2 < cexGame6.width / 2 then
        cexGame6.player.x + cexGame6.player.speed * (1/10)
       else cexGame6.player.x - cexGame6.player.speed * (1/10)) :=
  ⟨rfl, (ai_centering_amended cexGame6 (1/10) rfl).2⟩

/-- C7 counterexample: a paused frame of a started run updates nothing at
all — in particular the particle collection is frozen even though an
unpaused particle update would move it. -/
theorem paused_particles_frozen_cex :
    cexGame7.isRunning = true ∧ cexGame7.isPaused = true ∧
    cexGame7.update (1/100) = cexGame7 ∧
    cexParticle7.update (1/100) ≠ cexParticle7 := by
  refine ⟨rfl, rfl, ?_, ?_⟩
  · simp [Game.update, cexGame7, Game.startState]
  · norm_num [Particle.update, cexParticle7, Particle.new]

/-- C7 amended: in a live unpaused frame outside the PLAYING state the
particle collection is updated and purged while every gameplay entity,
the score and the wave are untouched; a paused frame updates nothing. -/
theorem particles_update_unpaused_amended (g : Game) (dt : ℚ)
    (hr : g.isRunning = true) (hp : g.isPaused = false)
    (hs : g.gameState ≠ GState.PLAYING) :
    (g.update dt).particles =
      (g.particles.map (fun p => p.update dt)).filter (fun p => !p.markedForDeletion) ∧
    (g.update dt).player = g.player ∧
    (g.update dt).bullets = g.bullets ∧
    (g.update dt).enemies = g.enemies ∧
    (g.update dt).score = g.score ∧
    (g.update dt).wave = g.wave ∧
    (g.update dt).gameState = g.gameState ∧
    (∀ g2 : Game, g2.isPaused = true → g2.update dt = g2) := by
  have hno : ¬(((g.updateBackground dt).updateParticles dt).gameState = GState.PLAYING) := hs
  simp only [Game.update]
  rw [if_neg (by simp [hr, hp]), if_neg hno]
  exact ⟨rfl, rfl, rfl, rfl, rfl, rfl, rfl, fun g2 h2 => by simp [Game.update, h2]⟩

/-- C7 witness: the amended particle step evaluated on a VICTORY state. -/
theorem particles_update_unpaused_amended_witness :
    cexGame7b.isRunning = true ∧ cexGame7b.isPaused = false ∧
    cexGame7b.gameState ≠ GState.PLAYING ∧
    (cexGame7b.update (1/100)).particles =
      (cexGame7b.particles.map (fun p => p.update (1/100))).filter
        (fun p => !p.markedForDeletion) :=
  ⟨rfl, rfl, by decide,
   (particles_update_unpaused_amended cexGame7b (1/100) rfl rfl (by decide)).1⟩

/-- C4 counterexample: six successive 20-damage hits starting from 100 hp
fire the game-over transition twice, not exactly once. -/
theorem game_over_fires_twice_cex :
    (Game.startState noInput false []).player.hp = 100 ∧
    ((Game.startState noInput false []).applyDamages [20, 20, 20, 20, 20, 20]).events =
      [ExtEvent.showGameOver, ExtEvent.showGameOver] := by
  constructor
  · rfl
  · norm_num [Game.applyDamages, Game.playerTakeDamage, Game.gameOver, Game.startState,
      Player.new]

/-- C4 amended: hp is clamped at 0 and never becomes negative over any
sequence of calls; outside cheat mode each call subtracts with a floor of
0 and emits the game-over notification exactly when the subtraction lands
at or below 0 — so the transition fires at the first crossing but also on
every later damaging call at 0 hp, not exactly once. -/
theorem hp_floor_amended (g : Game) (amounts : List ℤ) (amt : ℤ)
    (h0 : 0 ≤ g.player.hp) :
    0 ≤ (g.applyDamages amounts).player.hp ∧
    (g.cheatMode = false →
      ((g.playerTakeDamage amt).player.hp = max 0 (g.player.hp - amt) ∧
       (g.playerTakeDamage amt).events =
         g.events ++ (if g.player.hp - amt ≤ 0 then [ExtEvent.showGameOver] else []))) := by
  constructor
  · exact foldl_preserves (fun h => 0 ≤ h.player.hp) Game.playerTakeDamage
      (fun b a hb => Game.playerTakeDamage_hp_nonneg b a hb) amounts g h0
  · intro hc
    rw [Game.playerTakeDamage_spec g amt hc]
    split_ifs with h1
    · refine ⟨?_, rfl⟩
      show (0 : ℤ) = max 0 (g.player.hp - amt)
      omega
    · refine ⟨?_, by simp⟩
      show g.player.hp - amt = max 0 (g.player.hp - amt)
      omega

/-- C4 witness: the floor and the notification rule evaluated at the run
start state with a 150-damage hit. -/
theorem hp_floor_amended_witness :
    0 ≤ (Game.startState noInput false []).player.hp ∧
    0 ≤ ((Game.startState noInput false []).applyDamages [20, 150]).player.hp ∧
    ((Game.startState noInput false []).playerTakeDamage 150).player.hp =
      max 0 ((Game.startState noInput false []).player.hp - 150) :=
  ⟨by norm_num [Game.startState, Player.new],
   (hp_floor_amended (Game.startState noInput false []) [20, 150] 150
     (by norm_num [Game.startState, Player.new])).1,
   ((hp_floor_amended (Game.startState noInput false []) [20, 150] 150
     (by norm_num [Game.startState, Player.new])).2 rfl).1⟩

theorem Game.enemyDeathEffects_enemies (g : Game) (e : Enemy) :
    (g.enemyDeathEffects e).enemies = g.enemies := by
  obtain ⟨ps, rs, sch, hEq, -⟩ := Game.enemyDeathEffects_spec g e
  rw [hEq]

theorem Game.enemyDeathEffects_score (g : Game) (e : Enemy) :
    (g.enemyDeathEffects e).score = g.score := by
  obtain ⟨ps, rs, sch, hEq, -⟩ := Game.enemyDeathEffects_spec g e
  rw [hEq]

/-- A dead boss re-schedules the whole chain reaction (one timer per
tracked enemy) plus one more victory timer. -/
theorem Game.enemyDeathEffects_scheduled_boss (g : Game) (e : Enemy)
    (hb : e.type = EnemyType.boss) :
    (g.enemyDeathEffects e).scheduled.length = g.scheduled.length + g.enemies.length + 1 := by
  simp only [Game.enemyDeathEffects, if_pos hb]
  obtain ⟨ps, rs, hEq, -, -⟩ :=
    Game.createExplosion_spec (e.x + e.width / 2) (e.y + e.height / 2) (some "#ff0055") 100 g
  rw [hEq]
  simp [Game.triggerChainReaction]
  omega

theorem Game.enemyDeathEffects_scheduled_nonboss (g : Game) (e : Enemy)
    (hb : ¬(e.type = EnemyType.boss)) :
    (g.enemyDeathEffects e).scheduled = g.scheduled := by
  simp only [Game.enemyDeathEffects, if_neg hb]
  obtain ⟨ps, rs, hEq, -, -⟩ :=
    Game.createExplosion_spec (e.x + e.width / 2) (e.y + e.height / 2) none 10 g
  rw [hEq]

/-- Unfolding Enemy.takeDamage at a known index. -/
theorem Game.enemyTakeDamage_eq_of_get (g : Game) (i : ℕ) (a : ℤ) (e : Enemy)
    (hE : g.enemies[i]? = some e) :
    g.enemyTakeDamage i a =
      (if ({ e with hp := e.hp - a } : Enemy).hp ≤ 0 then
        Game.enemyDeathEffects
          { g with
              enemies := (g.enemies.set i { e with hp := e.hp - a }).set i
                { e with hp := e.hp - a, markedForDeletion := true },
              score := g.score + ({ e with hp := e.hp - a } : Enemy).scoreValue }
          { e with hp := e.hp - a }
      else { g with enemies := g.enemies.set i { e with hp := e.hp - a } }) := by
  simp [Game.enemyTakeDamage, hE]

/-- Enemy.takeDamage rewrites exactly the hit slot of the collection, with
the hp lowered by the damage amount. -/
theorem Game.enemyTakeDamage_enemies_shape (g : Game) (i : ℕ) (a : ℤ) (e : Enemy)
    (hE : g.enemies[i]? = some e) :
    ∃ x : Enemy, x.hp = e.hp - a ∧ (g.enemyTakeDamage i a).enemies = g.enemies.set i x := by
  rw [Game.enemyTakeDamage_eq_of_get g i a e hE]
  split_ifs with h
  · refine ⟨{ e with hp := e.hp - a, markedForDeletion := true }, rfl, ?_⟩
    rw [Game.enemyDeathEffects_enemies]
    simp [List.set_set]
  · exact ⟨{ e with hp := e.hp - a }, rfl, rfl⟩

/-- C8: dealing damage to a hostile that is already at or below 0 hp
re-runs the death branch: its score value is added to the score again, and
a dead boss re-triggers the chain reaction (one timer per tracked hostile)
and schedules a second delayed victory. -/
theorem dead_hostile_rescore (g : Game) (i : ℕ) (e : Enemy)
    (hE : g.enemies[i]? = some e) (hHp : e.hp ≤ 0) :
    (g.enemyTakeDamage i 1).score = g.score + e.scoreValue ∧
    (e.type = EnemyType.boss →
      (g.enemyTakeDamage i 1).scheduled.length =
        g.scheduled.length + g.enemies.length + 1) ∧
    (¬(e.type = EnemyType.boss) → (g.enemyTakeDamage i 1).scheduled = g.scheduled) := by
  rw [Game.enemyTakeDamage_eq_of_get g i 1 e hE]
  rw [if_pos (show ({ e with hp := e.hp - 1 } : Enemy).hp ≤ 0 from by
    show e.hp - 1 ≤ 0
    omega)]
  refine ⟨?_, ?_, ?_⟩
  · rw [Game.enemyDeathEffects_score]
  · intro hb
    rw [Game.enemyDeathEffects_scheduled_boss _ { e with hp := e.hp - 1 }
      (show ({ e with hp := e.hp - 1 } : Enemy).type = EnemyType.boss from hb)]
    simp [List.length_set]
  · intro hb
    rw [Game.enemyDeathEffects_scheduled_nonboss _ { e with hp := e.hp - 1 }
      (show ¬(({ e with hp := e.hp - 1 } : Enemy).type = EnemyType.boss) from hb)]

/-- C8 witness: one more hit on an already dead boss awards its 500 points
again and schedules two more timers (one chain kill for the single tracked
hostile and one victory delay). -/
theorem dead_hostile_rescore_witness :
    cexGame8.enemies[0]? = some cexDeadBoss ∧
    cexDeadBoss.hp ≤ 0 ∧
    (cexGame8.enemyTakeDamage 0 1).score = cexGame8.score + cexDeadBoss.scoreValue ∧
    (cexGame8.enemyTakeDamage 0 1).scheduled.length =
      cexGame8.scheduled.length + cexGame8.enemies.length + 1 :=
  ⟨rfl, by decide,
   (dead_hostile_rescore cexGame8 0 cexDeadBoss rfl (by decide)).1,
   (dead_hostile_rescore cexGame8 0 cexDeadBoss rfl (by decide)).2.1 rfl⟩

/-- In cheat mode, the enemy-versus-player pass marks every colliding
hostile, spawns a 10-particle burst per collision, and leaves the player,
the events and the run state untouched. -/
theorem Game.enemiesHitPlayer_cheat_fold (P0 : Player) :
    ∀ (es : List Enemy) (done : List Enemy) (h : Game),
      h.cheatMode = true → h.player = P0 →
      (es.foldl Game.playerEnemyStep (done, h)).1 =
        done ++ es.map (fun e => if checkCollision e.rect P0.rect then
          { e with markedForDeletion := true } else e) ∧
      (es.foldl Game.playerEnemyStep (done, h)).2.player = P0 ∧
      (es.foldl Game.playerEnemyStep (done, h)).2.cheatMode = true ∧
      (es.foldl Game.playerEnemyStep (done, h)).2.particles.length =
        h.particles.length +
          10 * (es.filter (fun e => checkCollision e.rect P0.rect)).length ∧
      (es.foldl Game.playerEnemyStep (done, h)).2.events = h.events ∧
      (es.foldl Game.playerEnemyStep (done, h)).2.gameState = h.gameState := by
  intro es
  induction es with
  | nil =>
    intro done h hc hP
    simp [hP, hc]
  | cons e tl ih =>
    intro done h hc hP
    rw [List.foldl_cons]
    have hstep : Game.playerEnemyStep (done, h) e =
        if checkCollision e.rect P0.rect then
          (done ++ [{ e with markedForDeletion := true }],
            (h.playerTakeDamage 20).createExplosion e.x e.y 10 none)
        else (done ++ [e], h) := by
      simp [Game.playerEnemyStep, hP]
    rw [hstep]
    by_cases hcol : checkCollision e.rect P0.rect = true
    · rw [if_pos hcol]
      have hc2 : ((h.playerTakeDamage 20).createExplosion e.x e.y 10 none).cheatMode = true := by
        rw [Game.createExplosion_cheatMode, Game.playerTakeDamage_cheat h 20 hc]
        exact hc
      have hp2 : ((h.playerTakeDamage 20).createExplosion e.x e.y 10 none).player = P0 := by
        rw [Game.createExplosion_player, Game.playerTakeDamage_cheat h 20 hc]
        exact hP
      obtain ⟨ih1, ih2, ih3, ih4, ih5, ih6⟩ :=
        ih (done ++ [{ e with markedForDeletion := true }]) _ hc2 hp2
      refine ⟨?_, ih2, ih3, ?_, ?_, ?_⟩
      · rw [ih1]
        simp [hcol]
      · rw [ih4]
        rw [show ((h.playerTakeDamage 20).createExplosion e.x e.y 10 none).particles.length =
            h.particles.length + 10 from by
          rw [Game.createExplosion_particles_length, Game.playerTakeDamage_cheat h 20 hc]]
        simp only [List.filter_cons, hcol, if_true, List.length_cons]
        omega
      · rw [ih5, Game.createExplosion_events, Game.playerTakeDamage_cheat h 20 hc]
      · rw [ih6, Game.createExplosion_gameState, Game.playerTakeDamage_cheat h 20 hc]
    · rw [if_neg hcol]
      obtain ⟨ih1, ih2, ih3, ih4, ih5, ih6⟩ := ih (done ++ [e]) h hc hP
      refine ⟨?_, ih2, ih3, ?_, ih5, ih6⟩
      · rw [ih1]
        simp [hcol]
      · rw [ih4]
        simp [List.filter_cons, hcol]

/-- C9: every hostile whose box collides with the player is marked dead
and spawns a 10-particle explosion burst even in autonomous (cheat) mode;
cheat mode skips only the player damage — the player state, the run state
and the UI events are untouched. -/
theorem cheat_collision_effects (g : Game) (hc : g.cheatMode = true) :
    g.enemiesHitPlayer.player = g.player ∧
    g.enemiesHitPlayer.enemies = g.enemies.map (fun e =>
      if checkCollision e.rect g.player.rect then { e with markedForDeletion := true } else e) ∧
    g.enemiesHitPlayer.particles.length =
      g.particles.length +
        10 * (g.enemies.filter (fun e => checkCollision e.rect g.player.rect)).length ∧
    g.enemiesHitPlayer.events = g.events ∧
    g.enemiesHitPlayer.gameState = g.gameState := by
  obtain ⟨h1, h2, h3, h4, h5, h6⟩ :=
    Game.enemiesHitPlayer_cheat_fold g.player g.enemies [] g hc rfl
  exact ⟨h2, by simpa using h1, h4, h5, h6⟩

/-- C9 witness: a scout overlapping the player in a cheat-mode state is
marked dead with a 10-particle burst while the player is untouched. -/
theorem cheat_collision_effects_witness :
    cexGame9.cheatMode = true ∧
    checkCollision (Enemy.new 380 530 EnemyType.scout false).rect cexGame9.player.rect = true ∧
    (cexGame9.enemiesHitPlayer.player = cexGame9.player ∧
     cexGame9.enemiesHitPlayer.enemies = cexGame9.enemies.map (fun e =>
       if checkCollision e.rect cexGame9.player.rect then
         { e with markedForDeletion := true } else e) ∧
     cexGame9.enemiesHitPlayer.particles.length =
       cexGame9.particles.length +
         10 * (cexGame9.enemies.filter
           (fun e => checkCollision e.rect cexGame9.player.rect)).length ∧
     cexGame9.enemiesHitPlayer.events = cexGame9.events ∧
     cexGame9.enemiesHitPlayer.gameState = cexGame9.gameState) :=
  ⟨rfl,
   by norm_num [checkCollision, Enemy.new, Enemy.rect, Player.rect, cexGame9,
     Game.startState, Player.new],
   cheat_collision_effects cexGame9 rfl⟩

theorem Game.enemyTakeDamage_map_hp (g : Game) (i : ℕ) (a : ℤ) (e : Enemy)
    (hE : g.enemies[i]? = some e) :
    (g.enemyTakeDamage i a).enemies.map Enemy.hp =
      (g.enemies.map Enemy.hp).set i (e.hp - a) := by
  obtain ⟨x, hx, hEq⟩ := Game.enemyTakeDamage_enemies_shape g i a e hE
  rw [hEq, List.map_set, hx]

theorem Game.enemyTakeDamage_getElem_ne (g : Game) (i : ℕ) (a : ℤ) (e : Enemy) (j : ℕ)
    (hE : g.enemies[i]? = some e) (hne : i ≠ j) :
    (g.enemyTakeDamage i a).enemies[j]? = g.enemies[j]? := by
  obtain ⟨x, hx, hEq⟩ := Game.enemyTakeDamage_enemies_shape g i a e hE
  rw [hEq, List.getElem?_set_ne hne]

/-- Evaluating one inner collision step on a confirmed hit. -/
theorem Game.bulletEnemyStep_hit (b : Bullet) (h : Game) (i : ℕ) (e : Enemy)
    (hE : h.enemies[i]? = some e) (hcol : checkCollision b.rect e.rect = true) :
    Game.bulletEnemyStep (b, h) i =
      ({ b with markedForDeletion := true }, h.enemyTakeDamage i 1) := by
  simp [Game.bulletEnemyStep, hE, hcol]

/-- C1 counterexample: one live bullet overlapping two live fighters in
the same pass lowers the hp of both of them, not only of the first. -/
theorem projectile_multi_hit_cex :
    checkCollision cexBullet.rect cexFighter1.rect = true ∧
    checkCollision cexBullet.rect cexFighter2.rect = true ∧
    cexGame1.enemies.map Enemy.hp = [3, 3] ∧
    cexGame1.enemies.map Enemy.markedForDeletion = [false, false] ∧
    cexGame1.bulletsHitEnemies.enemies.map Enemy.hp = [2, 2] := by
  refine ⟨?_, ?_, rfl, rfl, ?_⟩
  · norm_num [checkCollision, cexBullet, cexFighter1, Bullet.new, Enemy.new, Bullet.rect,
      Enemy.rect]
  · norm_num [checkCollision, cexBullet, cexFighter2, Bullet.new, Enemy.new, Bullet.rect,
      Enemy.rect]
  · norm_num [cexGame1, cexBullet, cexFighter1, cexFighter2, Game.startState, Player.new,
      Bullet.new, Enemy.new, Game.bulletsHitEnemies, Game.bulletStep, Game.bulletEnemyStep,
      Game.enemyTakeDamage, checkCollision, Bullet.rect, Enemy.rect, List.range_succ]

/-- C1 amended: when a live projectile overlaps several live hostiles in
the same pass, every overlapping hostile receives one unit of damage (here
shown for two): the projectile is marked dead after the first hit, but the
mark neither stops the inner loop nor is consulted by it. -/
theorem projectile_hits_every_overlapping_hostile (g : Game) (bu : Bullet) (e1 e2 : Enemy)
    (hb : g.bullets = [bu]) (he : g.enemies = [e1, e2])
    (h1 : checkCollision bu.rect e1.rect = true)
    (h2 : checkCollision bu.rect e2.rect = true) :
    g.bulletsHitEnemies.enemies.map Enemy.hp = [e1.hp - 1, e2.hp - 1] ∧
    g.bulletsHitEnemies.bullets = [{ bu with markedForDeletion := true }] := by
  have hE0 : g.enemies[0]? = some e1 := by rw [he]; rfl
  have hE1 : (g.enemyTakeDamage 0 1).enemies[1]? = some e2 := by
    rw [Game.enemyTakeDamage_getElem_ne g 0 1 e1 1 hE0 (by omega), he]
    rfl
  have hinner : (List.range g.enemies.length).foldl Game.bulletEnemyStep (bu, g) =
      ({ bu with markedForDeletion := true },
        (g.enemyTakeDamage 0 1).enemyTakeDamage 1 1) := by
    rw [show g.enemies.length = 2 from by rw [he]; rfl]
    rw [show List.range 2 = [0, 1] from rfl]
    simp only [List.foldl_cons, List.foldl_nil]
    rw [Game.bulletEnemyStep_hit bu g 0 e1 hE0 h1]
    rw [Game.bulletEnemyStep_hit { bu with markedForDeletion := true }
      (g.enemyTakeDamage 0 1) 1 e2 hE1
      (show checkCollision ({ bu with markedForDeletion := true } : Bullet).rect e2.rect = true
        from h2)]
  have hfold : g.bullets.foldl Game.bulletStep ([], g) =
      ([{ bu with markedForDeletion := true }],
        (g.enemyTakeDamage 0 1).enemyTakeDamage 1 1) := by
    rw [hb]
    simp only [List.foldl_cons, List.foldl_nil, Game.bulletStep]
    rw [hinner]
    rfl
  simp only [Game.bulletsHitEnemies]
  rw [hfold]
  constructor
  · show ((g.enemyTakeDamage 0 1).enemyTakeDamage 1 1).enemies.map Enemy.hp = _
    rw [Game.enemyTakeDamage_map_hp (g.enemyTakeDamage 0 1) 1 1 e2 hE1]
    rw [Game.enemyTakeDamage_map_hp g 0 1 e1 hE0]
    rw [he]
    rfl
  · rfl

/-- C1 witness: the amended statement evaluated on the bullet overlapping
both fighters. -/
theorem projectile_hits_every_overlapping_hostile_witness :
    cexGame1.bullets = [cexBullet] ∧ cexGame1.enemies = [cexFighter1, cexFighter2] ∧
    cexGame1.bulletsHitEnemies.enemies.map Enemy.hp =
      [cexFighter1.hp - 1, cexFighter2.hp - 1] ∧
    cexGame1.bulletsHitEnemies.bullets = [{ cexBullet with markedForDeletion := true }] := by
  have hcol1 : checkCollision cexBullet.rect cexFighter1.rect = true := by
    norm_num [checkCollision, cexBullet, cexFighter1, Bullet.new, Enemy.new, Bullet.rect,
      Enemy.rect]
  have hcol2 : checkCollision cexBullet.rect cexFighter2.rect = true := by
    norm_num [checkCollision, cexBullet, cexFighter2, Bullet.new, Enemy.new, Bullet.rect,
      Enemy.rect]
  obtain ⟨ha, hb⟩ :=
    projectile_hits_every_overlapping_hostile cexGame1 cexBullet cexFighter1 cexFighter2
      rfl rfl hcol1 hcol2
  exact ⟨rfl, rfl, ha, hb⟩

theorem particles_filter_live (l : List Particle) :
    (l.filter (fun p => !p.markedForDeletion)).all (fun p => !p.markedForDeletion) = true := by
  simp only [List.all_eq_true]
  intro p hp
  exact (List.mem_filter.mp hp).2

theorem Game.spawnPhase_particles (g : Game) (dt : ℚ) :
    (g.spawnPhase dt).particles = g.particles := by
  obtain ⟨es, rs, et, hEq⟩ := Game.spawnPhase_spec g dt
  rw [hEq]

theorem Game.waveProgression_particles (g : Game) :
    g.waveProgression.particles = g.particles := by
  obtain ⟨w, ei, es, hEq, -⟩ := Game.waveProgression_spec g
  rw [hEq]

/-- The collision pass only ever appends live particles. -/
theorem Game.checkCollisions_particles_live (g : Game)
    (hg : g.particles.all (fun p => !p.markedForDeletion) = true) :
    g.checkCollisions.particles.all (fun p => !p.markedForDeletion) = true := by
  unfold Game.checkCollisions
  have h1 : g.bulletsHitEnemies.particles.all (fun p => !p.markedForDeletion) = true :=
    Game.bulletsHitEnemies_preserve
      (fun h => h.particles.all (fun p => !p.markedForDeletion) = true)
      (fun h i hp => Game.enemyTakeDamage_particles_live h i 1 hp)
      (fun h bs hp => hp) g hg
  exact Game.enemiesHitPlayer_preserve
    (fun h => h.particles.all (fun p => !p.markedForDeletion) = true)
    (fun h hp => by
      show (h.playerTakeDamage 20).particles.all (fun p => !p.markedForDeletion) = true
      rw [Game.playerTakeDamage_particles]
      exact hp)
    (fun h x y hp => Game.createExplosion_particles_live h x y 10 none hp)
    (fun h es hp => hp) _ h1

/-- C2 counterexample: in the frame in which the single bullet kills the
single scout, both are marked dead during the collision pass yet both are
still members of their collections at frame end — and both are drawn by
the frame renderer while carrying the deletion mark. -/
theorem dead_entity_drawn_again_cex :
    cexGame2.gameState = GState.PLAYING ∧
    ((cexGame2.update (1/100)).bullets.map Bullet.markedForDeletion) = [true] ∧
    ((cexGame2.update (1/100)).enemies.map Enemy.markedForDeletion) = [true] ∧
    ((cexGame2.update (1/100)).draw.any (fun c => match c with
      | DrawCall.bulletDraw b => b.markedForDeletion
      | DrawCall.enemyDraw e => e.markedForDeletion
      | _ => false)) = true := by
  have e1 : cexGame2.updateBackground (1/100) = { cexGame2 with
      backgroundY := 1/2 } := by
    norm_num [Game.updateBackground, cexGame2, Game.startState]
  have e2 : ({ cexGame2 with
      backgroundY := 1/2 } : Game).updateParticles (1/100) = { cexGame2 with
      backgroundY := 1/2 } := by
    norm_num [Game.updateParticles, cexGame2, Game.startState]
  have e3 : ({ cexGame2 with
      backgroundY := 1/2 } : Game).playerUpdate (1/100) = { cexGame2 with
      backgroundY := 1/2
      player := { x := 370, y := 520, width := 60, height := 60, speed := 400, shootTimer := 499/100, shootInterval := 1/5, hp := 100, maxHp := 100 } } := by
    norm_num [Game.playerUpdate, Game.playerUpdateManual, Game.shoot, cexGame2,
      Game.startState, Player.new, noInput, min_def, max_def]
  have e4 : ({ cexGame2 with
      backgroundY := 1/2
      player := { x := 370, y := 520, width := 60, height := 60, speed := 400, shootTimer := 499/100, shootInterval := 1/5, hp := 100, maxHp := 100 } } : Game).updateBullets (1/100) = { cexGame2 with
      backgroundY := 1/2
      player := { x := 370, y := 520, width := 60, height := 60, speed := 400, shootTimer := 499/100, shootInterval := 1/5, hp := 100, maxHp := 100 }
      bullets := [{ x := 100, y := 294, width := 5, height := 15, speed := -600, markedForDeletion := false }] } := by
    norm_num [Game.updateBullets, Bullet.update, cexGame2, Game.startState, Bullet.new]
  have e5 : ({ cexGame2 with
      backgroundY := 1/2
      player := { x := 370, y := 520, width := 60, height := 60, speed := 400, shootTimer := 499/100, shootInterval := 1/5, hp := 100, maxHp := 100 }
      bullets := [{ x := 100, y := 294, width := 5, height := 15, speed := -600, markedForDeletion := false }] } : Game).spawnPhase (1/100) = { cexGame2 with
      backgroundY := 1/2
      player := { x := 370, y := 520, width := 60, height := 60, speed := 400, shootTimer := 499/100, shootInterval := 1/5, hp := 100, maxHp := 100 }
      bullets := [{ x := 100, y := 294, width := 5, height := 15, speed := -600, markedForDeletion := false }]
      enemyTimer := 9999/100 } := by
    norm_num [Game.spawnPhase, cexGame2, Game.startState]
  have e6 : ({ cexGame2 with
      backgroundY := 1/2
      player := { x := 370, y := 520, width := 60, height := 60, speed := 400, shootTimer := 499/100, shootInterval := 1/5, hp := 100, maxHp := 100 }
      bullets := [{ x := 100, y := 294, width := 5, height := 15, speed := -600, markedForDeletion := false }]
      enemyTimer := 9999/100 } : Game).updateEnemies (1/100) = { cexGame2 with
      backgroundY := 1/2
      player := { x := 370, y := 520, width := 60, height := 60, speed := 400, shootTimer := 499/100, shootInterval := 1/5, hp := 100, maxHp := 100 }
      bullets := [{ x := 100, y := 294, width := 5, height := 15, speed := -600, markedForDeletion := false }]
      enemyTimer := 9999/100
      enemies := [{ x := 181/2, y := 583/2, width := 40, height := 40, type := EnemyType.scout, hp := 1, scoreValue := 10, speedX := 50, speedY := 150, markedForDeletion := false }] } := by
    norm_num [Game.updateEnemies, Enemy.update, cexGame2, Game.startState, Enemy.new]
  have e7a : ({ cexGame2 with
      backgroundY := 1/2
      player := { x := 370, y := 520, width := 60, height := 60, speed := 400, shootTimer := 499/100, shootInterval := 1/5, hp := 100, maxHp := 100 }
      bullets := [{ x := 100, y := 294, width := 5, height := 15, speed := -600, markedForDeletion := false }]
      enemyTimer := 9999/100
      enemies := [{ x := 181/2, y := 583/2, width := 40, height := 40, type := EnemyType.scout, hp := 1, scoreValue := 10, speedX := 50, speedY := 150, markedForDeletion := false }] } : Game).bulletsHitEnemies = { cexGame2 with
      backgroundY := 1/2
      player := { x := 370, y := 520, width := 60, height := 60, speed := 400, shootTimer := 499/100, shootInterval := 1/5, hp := 100, maxHp := 100 }
      bullets := [{ x := 100, y := 294, width := 5, height := 15, speed := -600, markedForDeletion := true }]
      enemyTimer := 9999/100
      enemies := [{ x := 181/2, y := 583/2, width := 40, height := 40, type := EnemyType.scout, hp := 0, scoreValue := 10, speedX := 50, speedY := 150, markedForDeletion := true }]
      score := 10
      particles := List.replicate 10 { x := 221/2, y := 623/2, size := 2, speedX := -100, speedY := -100, color := none, life := 1, markedForDeletion := false } } := by
    norm_num [Game.bulletsHitEnemies, Game.bulletStep, Game.bulletEnemyStep,
      Game.enemyTakeDamage, Game.enemyDeathEffects, Game.createExplosion, Game.pushParticle,
      Game.drawRand, Game.triggerChainReaction, checkCollision, Bullet.rect, Enemy.rect,
      Particle.new, cexGame2, Game.startState, Enemy.new, Bullet.new, List.range_succ,
      List.replicate, show ¬(EnemyType.scout = EnemyType.boss) from by decide]
  have e7b : ({ cexGame2 with
      backgroundY := 1/2
      player := { x := 370, y := 520, width := 60, height := 60, speed := 400, shootTimer := 499/100, shootInterval := 1/5, hp := 100, maxHp := 100 }
      bullets := [{ x := 100, y := 294, width := 5, height := 15, speed := -600, markedForDeletion := true }]
      enemyTimer := 9999/100
      enemies := [{ x := 181/2, y := 583/2, width := 40, height := 40, type := EnemyType.scout, hp := 0, scoreValue := 10, speedX := 50, speedY := 150, markedForDeletion := true }]
      score := 10
      particles := List.replicate 10 { x := 221/2, y := 623/2, size := 2, speedX := -100, speedY := -100, color := none, life := 1, markedForDeletion := false } } : Game).enemiesHitPlayer = { cexGame2 with
      backgroundY := 1/2
      player := { x := 370, y := 520, width := 60, height := 60, speed := 400, shootTimer := 499/100, shootInterval := 1/5, hp := 100, maxHp := 100 }
      bullets := [{ x := 100, y := 294, width := 5, height := 15, speed := -600, markedForDeletion := true }]
      enemyTimer := 9999/100
      enemies := [{ x := 181/2, y := 583/2, width := 40, height := 40, type := EnemyType.scout, hp := 0, scoreValue := 10, speedX := 50, speedY := 150, markedForDeletion := true }]
      score := 10
      particles := List.replicate 10 { x := 221/2, y := 623/2, size := 2, speedX := -100, speedY := -100, color := none, life := 1, markedForDeletion := false } } := by
    norm_num [Game.enemiesHitPlayer, Game.playerEnemyStep, checkCollision, Enemy.rect,
      Player.rect, cexGame2, Game.startState, Player.new]
  have e8 : ({ cexGame2 with
      backgroundY := 1/2
      player := { x := 370, y := 520, width := 60, height := 60, speed := 400, shootTimer := 499/100, shootInterval := 1/5, hp := 100, maxHp := 100 }
      bullets := [{ x := 100, y := 294, width := 5, height := 15, speed := -600, markedForDeletion := true }]
      enemyTimer := 9999/100
      enemies := [{ x := 181/2, y := 583/2, width := 40, height := 40, type := EnemyType.scout, hp := 0, scoreValue := 10, speedX := 50, speedY := 150, markedForDeletion := true }]
      score := 10
      particles := List.replicate 10 { x := 221/2, y := 623/2, size := 2, speedX := -100, speedY := -100, color := none, life := 1, markedForDeletion := false } } : Game).waveProgression = { cexGame2 with
      backgroundY := 1/2
      player := { x := 370, y := 520, width := 60, height := 60, speed := 400, shootTimer := 499/100, shootInterval := 1/5, hp := 100, maxHp := 100 }
      bullets := [{ x := 100, y := 294, width := 5, height := 15, speed := -600, markedForDeletion := true }]
      enemyTimer := 9999/100
      enemies := [{ x := 181/2, y := 583/2, width := 40, height := 40, type := EnemyType.scout, hp := 0, scoreValue := 10, speedX := 50, speedY := 150, markedForDeletion := true }]
      score := 10
      particles := List.replicate 10 { x := 221/2, y := 623/2, size := 2, speedX := -100, speedY := -100, color := none, life := 1, markedForDeletion := false } } := by
    norm_num [Game.waveProgression, cexGame2, Game.startState]
  have hU : cexGame2.update (1/100) = { cexGame2 with
      backgroundY := 1/2
      player := { x := 370, y := 520, width := 60, height := 60, speed := 400, shootTimer := 499/100, shootInterval := 1/5, hp := 100, maxHp := 100 }
      bullets := [{ x := 100, y := 294, width := 5, height := 15, speed := -600, markedForDeletion := true }]
      enemyTimer := 9999/100
      enemies := [{ x := 181/2, y := 583/2, width := 40, height := 40, type := EnemyType.scout, hp := 0, scoreValue := 10, speedX := 50, speedY := 150, markedForDeletion := true }]
      score := 10
      particles := List.replicate 10 { x := 221/2, y := 623/2, size := 2, speedX := -100, speedY := -100, color := none, life := 1, markedForDeletion := false } } := by
    simp only [Game.update]
    rw [if_neg (show ¬((!cexGame2.isRunning || cexGame2.isPaused) = true) from by
      norm_num [cexGame2, Game.startState])]
    rw [e1, e2]
    rw [if_pos (show ({ cexGame2 with
      backgroundY := 1/2 } : Game).gameState = GState.PLAYING from rfl)]
    rw [e3, e4, e5, e6]
    simp only [Game.checkCollisions]
    rw [e7a, e7b, e8]
  refine ⟨rfl, ?_, ?_, ?_⟩ <;> rw [hU] <;> rfl

/-- C2 amended: entities marked dead during their own collection update
are purged by the filter that immediately follows it — so the particle
collection holds only live members at frame end — but entities marked
dead later in the frame, during the collision pass, stay in their
collections through the frame end and are issued to the renderer while
the state remains PLAYING; removal is per-collection mid-update
filtering, not a frame-end purge. -/
theorem purge_discipline_amended (g : Game) (dt : ℚ)
    (hr : g.isRunning = true) (hp : g.isPaused = false)
    (hs : g.gameState = GState.PLAYING) :
    ((g.update dt).particles.all (fun p => !p.markedForDeletion)) = true ∧
    ((g.update dt).gameState = GState.PLAYING →
      (∀ b ∈ (g.update dt).bullets, DrawCall.bulletDraw b ∈ (g.update dt).draw) ∧
      (∀ e ∈ (g.update dt).enemies, DrawCall.enemyDraw e ∈ (g.update dt).draw)) := by
  have hcond : ((g.updateBackground dt).updateParticles dt).gameState = GState.PLAYING := hs
  simp only [Game.update]
  rw [if_neg (by simp [hr, hp]), if_pos hcond]
  have hbase : ((g.updateBackground dt).updateParticles dt).particles.all
      (fun p => !p.markedForDeletion) = true := particles_filter_live _
  have h3 : (((g.updateBackground dt).updateParticles dt).playerUpdate dt).particles.all
      (fun p => !p.markedForDeletion) = true := by
    rw [Game.playerUpdate_particles]
    exact hbase
  have h4 : ((((g.updateBackground dt).updateParticles dt).playerUpdate dt).updateBullets
      dt).particles.all (fun p => !p.markedForDeletion) = true := h3
  have h5 : (((((g.updateBackground dt).updateParticles dt).playerUpdate dt).updateBullets
      dt).spawnPhase dt).particles.all (fun p => !p.markedForDeletion) = true := by
    rw [Game.spawnPhase_particles]
    exact h4
  have h6 : ((((((g.updateBackground dt).updateParticles dt).playerUpdate dt).updateBullets
      dt).spawnPhase dt).updateEnemies dt).particles.all
      (fun p => !p.markedForDeletion) = true := h5
  have h7 := Game.checkCollisions_particles_live _ h6
  have h8 : (((((((g.updateBackground dt).updateParticles dt).playerUpdate dt).updateBullets
      dt).spawnPhase dt).updateEnemies dt).checkCollisions).waveProgression.particles.all
      (fun p => !p.markedForDeletion) = true := by
    rw [Game.waveProgression_particles]
    exact h7
  refine ⟨h8, ?_⟩
  intro hPlay
  constructor
  · intro b hbmem
    unfold Game.draw
    rw [if_pos hPlay]
    exact List.mem_append_left _ (List.mem_cons_of_mem _
      (List.mem_append_left _ (List.mem_map_of_mem _ hbmem)))
  · intro e hemem
    unfold Game.draw
    rw [if_pos hPlay]
    exact List.mem_append_left _ (List.mem_cons_of_mem _
      (List.mem_append_right _ (List.mem_map_of_mem _ hemem)))

/-- C2 witness: the amended particle-purge statement evaluated on the
frame in which the bullet kills the scout. -/
theorem purge_discipline_amended_witness :
    cexGame2.isRunning = true ∧ cexGame2.isPaused = false ∧
    cexGame2.gameState = GState.PLAYING ∧
    ((cexGame2.update (1/100)).particles.all (fun p => !p.markedForDeletion)) = true :=
  ⟨rfl, rfl, rfl, (purge_discipline_amended cexGame2 (1/100) rfl rfl rfl).1⟩

end GalacticDefender







